import Mathlib

/-!
Shallow embedding of `deeppavlov/models/kbqa/query_generator.py` (class
`QueryGenerator`): template dispatch, fallback chaining and the per-template
knowledge-graph search strategies.

Modelling conventions:
* External collaborators (the wiki KG access component, the relation ranker,
  the entity linker, tokenizer, year/number extractors, the asc/desc
  classifier) are fields of an `Env` record; the configuration values
  (`entities_to_leave`, `rels_to_leave`, `rels_to_leave_2hop`,
  `rank_list_0`, `rank_list_1`) live there as well.
* Python tuples of strings of varying arity (the candidate outputs) are
  `List String`; `str(len(xs))` is `toString xs.length`.
* Python code that can raise (list indexing, `re.search(..).group`,
  `float(..)`, a read of an unbound local) is embedded in
  `Except String`, the error string naming the Python exception class.
* `list(set(xs))` has implementation-defined order in Python; it is modelled
  as `List.dedup`.  `set(a) & set(b)` is modelled as `(a.filter (· ∈ b)).dedup`.
  No theorem below depends on the chosen order.
* `sorted(key=.., reverse=..)` is modelled by a stable insertion sort
  (`pySortBy`), matching Python's stable sort semantics.
-/

namespace QueryGen

/-- A candidate output: a Python tuple of strings of template-specific arity. -/
abbrev Output := List String

/-- Python list indexing `l[i]`: raises `IndexError` when out of range. -/
def pyGet (l : List α) (i : Nat) : Except String α :=
  match l.get? i with
  | some x => Except.ok x
  | none => Except.error "IndexError"

/-- Python list indexing `l[-1]`: raises `IndexError` on the empty list. -/
def pyLast (l : List α) : Except String α :=
  match l.getLast? with
  | some x => Except.ok x
  | none => Except.error "IndexError"

/-- Insert `x` into `l` keeping every earlier element `y` with `le y x` in
front of it: the building block of a stable insertion sort. -/
def pyInsert (le : α → α → Bool) (x : α) : List α → List α
  | [] => [x]
  | y :: ys => if le y x then y :: pyInsert le x ys else x :: y :: ys

/-- Stable insertion sort: models Python's stable `sorted`. -/
def pySort (le : α → α → Bool) (l : List α) : List α :=
  l.foldl (fun acc x => pyInsert le x acc) []

/-- `sorted(l, key=key, reverse=reverse)`: stable, ascending by `key` when
`reverse` is false, descending when true. -/
def pySortBy (key : α → ℚ) (reverse : Bool) (l : List α) : List α :=
  pySort (fun a b => if reverse then decide (key b ≤ key a) else decide (key a ≤ key b)) l

/-- `re.search(r'["]([^"]*)["]*', s)` followed by `.group(1)`: the text after
the first double quote of `s`, up to the next double quote or the end;
`none` when `s` holds no double quote (in which case `re.search` returns
`None` and `.group` raises `AttributeError`). -/
def extractQuotedAux : List Char → Option (List Char)
  | [] => none
  | c :: rest => if c = '"' then some (rest.takeWhile (fun d => d ≠ '"')) else extractQuotedAux rest

/-- String version of `extractQuotedAux`. -/
def extractQuoted (s : String) : Option String :=
  (extractQuotedAux s.data).map fun cs => String.mk cs

/-- Consume an optional sign, returning whether it was `-`. -/
def parseSign : List Char → (Bool × List Char)
  | '+' :: rest => (false, rest)
  | '-' :: rest => (true, rest)
  | cs => (false, cs)

/-- Decimal digits to a natural number. -/
def natOfDigits (ds : List Char) : Nat :=
  ds.foldl (fun n d => 10 * n + (d.toNat - 48)) 0

/-- Mantissa of a Python float literal: digits with an optional fraction part,
or a bare fraction part (`".5"`).  Returns the concatenated digit value and
the length of the fraction part, so the value is `digits / 10 ^ fracLen`. -/
def parseMantissa (cs : List Char) : Option ((Nat × Nat) × List Char) :=
  let intPart := cs.takeWhile Char.isDigit
  let rest1 := cs.dropWhile Char.isDigit
  match rest1 with
  | '.' :: rest2 =>
      let fracPart := rest2.takeWhile Char.isDigit
      let rest3 := rest2.dropWhile Char.isDigit
      if intPart.isEmpty ∧ fracPart.isEmpty then none
      else some ((natOfDigits (intPart ++ fracPart), fracPart.length), rest3)
  | _ => if intPart.isEmpty then none else some ((natOfDigits intPart, 0), rest1)

/-- Optional exponent part `e`/`E`, sign, digits. -/
def parseExponent (cs : List Char) : Option (ℤ × List Char) :=
  match cs with
  | 'e' :: rest =>
      let (neg, rest2) := parseSign rest
      let ds := rest2.takeWhile Char.isDigit
      let rest3 := rest2.dropWhile Char.isDigit
      if ds.isEmpty then none
      else some ((if neg then -(natOfDigits ds : ℤ) else (natOfDigits ds : ℤ)), rest3)
  | 'E' :: rest =>
      let (neg, rest2) := parseSign rest
      let ds := rest2.takeWhile Char.isDigit
      let rest3 := rest2.dropWhile Char.isDigit
      if ds.isEmpty then none
      else some ((if neg then -(natOfDigits ds : ℤ) else (natOfDigits ds : ℤ)), rest3)
  | _ => some (0, cs)

/-- Python's `float(s)` on the numeric-literal grammar (optional whitespace,
sign, digits with optional fraction, optional exponent): `none` models a
`ValueError`.  The special forms `inf`/`nan` and digit underscores are not
modelled; no statement below depends on them.  The exact value is kept as a
rational, which is order-compatible with the IEEE value Python computes. -/
def pyFloat (s : String) : Option ℚ := do
  let cs := s.data.dropWhile Char.isWhitespace
  let (neg, cs1) := parseSign cs
  let ((digits, fracLen), cs2) ← parseMantissa cs1
  let (e, cs3) ← parseExponent cs2
  let cs4 := cs3.dropWhile Char.isWhitespace
  if cs4.isEmpty then
    let scaled : Nat := match e with
      | Int.ofNat k => digits * 10 ^ k
      | Int.negSucc _ => digits
    let den : Nat := match e with
      | Int.ofNat _ => 10 ^ fracLen
      | Int.negSucc k => 10 ^ fracLen * 10 ^ (k + 1)
    pure (mkRat (if neg then -(scaled : ℤ) else (scaled : ℤ)) den)
  else none

/-- `float(re.search(r'["]([^"]*)["]*', s).group(1))` from the max/min
subgraph search: `AttributeError` when `s` has no quote, `ValueError` when
the quoted text is not a float literal. -/
def parseDecimalLiteral (s : String) : Except String ℚ :=
  match extractQuoted s with
  | none => Except.error "AttributeError"
  | some t =>
      match pyFloat t with
      | some v => Except.ok v
      | none => Except.error "ValueError"

/-- `list(set(a) & set(b))` (iteration order of a Python set is
implementation-defined; first-list order is used here). -/
def pySetInter (a b : List String) : List String :=
  (a.filter (· ∈ b)).dedup

/-- The `filter_obj` URI used to select decimal-typed literals. -/
def xsdDecimal : String := "http://www.w3.org/2001/XMLSchema#decimal"

/-- External collaborators and configuration of `QueryGenerator`.  The three
`wp_*` fields are the wiki KG access component's `"rels"`, `"objects"` and
`"triplets"` modes; arguments are (direction, entity, rel, obj, type_of_rel,
filter_obj), `none` standing for a Python keyword argument left at `None`. -/
structure Env where
  wp_rels : String → String → Option String → Option String → Option String → Option String → List String
  wp_objects : String → String → Option String → Option String → Option String → Option String → List String
  wp_triplets : String → String → Option String → List (List String)
  rank_rels : String → List String → List (String × ℤ)
  linker : String → List String × List ℤ
  word_tokenize : String → List String
  extract_year : List String → String → Option String
  extract_number : List String → String → Option String
  asc_desc : String → Bool
  rank_list_0 : List String
  rank_list_1 : List String
  entities_to_leave : Nat
  rels_to_leave : Nat
  rels_to_leave_2hop : Nat

/-- Modelled from the spec: `make_entity_combs` / `combine_entities`
(`deeppavlov.models.kbqa.utils`, not under `src/`) — the Cartesian product
across the entity-ID lists, iterated outer-to-inner in list order (the first
list varies slowest), no deduplication. -/
def make_entity_combs : List (List String) → List (List String)
  | [] => [[]]
  | l :: ls => l.flatMap fun x => (make_entity_combs ls).map fun c => x :: c

/-- Body of the object loop of `find_relevant_subgraph_cqwn` (templates 0/1). -/
def cqwn_obj (env : Env) (template_num : Nat) (num rel obj : String) : List Output :=
  if template_num = 0 then
    let answers := env.wp_objects "forw" obj (some rel) none (some "statement") none
    let second_rels := env.wp_rels "forw" obj none none (some "qualifier") (some num)
    if second_rels.length > 0 ∧ answers.length > 0 then
      second_rels.flatMap fun second_rel => answers.map fun ans => [rel, second_rel, ans]
    else []
  else if template_num = 1 then
    let answer_triplets := env.wp_triplets "forw" obj (some "qualifier")
    let second_rels := env.wp_rels "forw" obj (some rel) none (some "statement") (some num)
    if second_rels.length > 0 ∧ answer_triplets.length > 0 then
      answer_triplets.map fun ans => [rel, ans.getD 1 "", ans.getD 2 ""]
    else []
  else []

/-- `find_relevant_subgraph_cqwn`: entity × relation × object accumulation,
no early return.  `template_num` is the engine's active-template state. -/
def find_relevant_subgraph_cqwn (env : Env) (template_num : Nat)
    (entities_list rels : List String) (num : String) : List Output :=
  entities_list.flatMap fun entity => rels.flatMap fun rel =>
    (env.wp_objects "forw" entity (some rel) none none none).flatMap fun obj =>
      cqwn_obj env template_num num rel obj

/-- Body of the object loop of `find_relevant_subgraph_cqwq` (templates 2/3). -/
def cqwq_obj (env : Env) (template_num : Nat) (rel ent2 obj : String) : List Output :=
  if template_num = 2 then
    let answer_triplets := env.wp_triplets "forw" obj (some "qualifier")
    let second_rels := env.wp_rels "backw" ent2 (some rel) (some obj) (some "statement") none
    if second_rels.length > 0 ∧ answer_triplets.length > 0 then
      answer_triplets.map fun ans => [rel, ans.getD 1 "", ans.getD 2 ""]
    else []
  else if template_num = 3 then
    let answers := env.wp_objects "forw" obj (some rel) none (some "statement") none
    let second_rels := env.wp_rels "backw" ent2 none (some obj) (some "qualifier") none
    if second_rels.length > 0 ∧ answers.length > 0 then
      second_rels.flatMap fun second_rel => answers.map fun ans => [rel, second_rel, ans]
    else []
  else []

/-- `find_relevant_subgraph_cqwq`: entity-combination × relation × object
accumulation, no early return. -/
def find_relevant_subgraph_cqwq (env : Env) (template_num : Nat)
    (ent_combs : List (List String)) (rels : List String) : List Output :=
  ent_combs.flatMap fun ent_comb => rels.flatMap fun rel =>
    (env.wp_objects "forw" (ent_comb.getD 0 "") (some rel) none none none).flatMap fun obj =>
      cqwq_obj env template_num rel (ent_comb.getD 1 "") obj

/-- Object loop of `find_relevant_subgraph_maxmin_one`: collect
(rel, obj, parsed value) for every class member with a decimal-typed object;
literal parsing may raise. -/
def maxmin_one_objs (env : Env) (rel : String) :
    List String → Except String (List (String × String × ℚ))
  | [] => Except.ok []
  | obj :: rest => do
      let objects_2 := env.wp_objects "forw" obj (some rel) none (some "direct") (some xsdDecimal)
      if objects_2.length > 0 then do
        let v ← parseDecimalLiteral (objects_2.headD "")
        let tail ← maxmin_one_objs env rel rest
        pure ((rel, obj, v) :: tail)
      else maxmin_one_objs env rel rest

/-- Relation loop of `find_relevant_subgraph_maxmin_one`: the first relation
with a nonempty candidate set short-circuits. -/
def maxmin_one_rels (env : Env) (objects_1 : List String) :
    List String → Except String (List (String × String × ℚ))
  | [] => Except.ok []
  | rel :: rest => do
      let cands ← maxmin_one_objs env rel objects_1
      if cands.length > 0 then pure cands else maxmin_one_rels env objects_1 rest

/-- `find_relevant_subgraph_maxmin_one`: per entity, fetch the backward
`P31` class members, then scan relations in rank order; first nonempty
(rel, obj, value) set wins. -/
def find_relevant_subgraph_maxmin_one (env : Env) (rels : List String) :
    List String → Except String (List (String × String × ℚ))
  | [] => Except.ok []
  | entity :: rest => do
      let objects_1 := env.wp_objects "backw" entity (some "P31") none (some "direct") none
      let cands ← maxmin_one_rels env objects_1 rels
      if cands.length > 0 then pure cands else find_relevant_subgraph_maxmin_one env rels rest

/-- Object loop of `find_relevant_subgraph_maxmin_two`. -/
def maxmin_two_objs (env : Env) (rel_1 rel_2 : String) :
    List String → Except String (List (String × String × String × ℚ))
  | [] => Except.ok []
  | obj :: rest => do
      let objects_3 := env.wp_objects "forw" obj (some rel_2) none (some "direct") (some xsdDecimal)
      if objects_3.length > 0 then do
        let v ← parseDecimalLiteral (objects_3.headD "")
        let tail ← maxmin_two_objs env rel_1 rel_2 rest
        pure ((rel_1, rel_2, obj, v) :: tail)
      else maxmin_two_objs env rel_1 rel_2 rest

/-- Second-relation loop of `find_relevant_subgraph_maxmin_two`. -/
def maxmin_two_rels2 (env : Env) (rel_1 : String) (objects_intersect : List String) :
    List String → Except String (List (String × String × String × ℚ))
  | [] => Except.ok []
  | rel_2 :: rest => do
      let cands ← maxmin_two_objs env rel_1 rel_2 objects_intersect
      if cands.length > 0 then pure cands else maxmin_two_rels2 env rel_1 objects_intersect rest

/-- First-relation loop of `find_relevant_subgraph_maxmin_two`. -/
def maxmin_two_rels1 (env : Env) (objects_1 : List String) (ent2 : String)
    (rels_2 : List String) :
    List String → Except String (List (String × String × String × ℚ))
  | [] => Except.ok []
  | rel_1 :: rest => do
      let objects_2 := env.wp_objects "backw" ent2 (some rel_1) none (some "direct") none
      let objects_intersect := pySetInter objects_1 objects_2
      let cands ← maxmin_two_rels2 env rel_1 objects_intersect rels_2
      if cands.length > 0 then pure cands else maxmin_two_rels1 env objects_1 ent2 rels_2 rest

/-- `find_relevant_subgraph_maxmin_two`: join entity A's class members with
entity B's backward-relation objects; first (rel_1, rel_2) pair with a
nonempty candidate set wins. -/
def find_relevant_subgraph_maxmin_two (env : Env) (rels_1 rels_2 : List String) :
    List (List String) → Except String (List (String × String × String × ℚ))
  | [] => Except.ok []
  | ent_comb :: rest => do
      let objects_1 := env.wp_objects "backw" (ent_comb.getD 0 "") (some "P31") none (some "direct") none
      let cands ← maxmin_two_rels1 env objects_1 (ent_comb.getD 1 "") rels_2 rels_1
      if cands.length > 0 then pure cands
      else find_relevant_subgraph_maxmin_two env rels_1 rels_2 rest

/-- `complex_question_with_number_solver` (templates 0/1).  In the
`rels_from_template` branch the Python local `ex_rels` is never assigned, so
the on-empty retry would read an unbound local (`UnboundLocalError`); the
dispatcher only ever calls this solver with `rels_from_template=None`. -/
def complex_question_with_number_solver (env : Env) (template_num : Nat) (question : String)
    (entity_ids : List (List String))
    (rels_from_template : Option (List (List String))) : Except String (List Output) := do
  let question_tokens := env.word_tokenize question
  let (top_rels, ranked_ex_rels) ←
    match rels_from_template with
    | some rfts => do
        let first ← pyGet rfts 0
        pure (first.dropLast, (none : Option (List String)))
    | none => do
        let first_ents ← pyGet entity_ids 0
        let ex_rels := (first_ents.take env.entities_to_leave).flatMap fun entity =>
          env.wp_rels "forw" entity none none (some "direct") none
        let ex_rels := ex_rels.dedup
        pure (((env.rank_rels question ex_rels).map Prod.fst), some ex_rels)
  let year := env.extract_year question_tokens question
  let number := if year.isSome then none else env.extract_number question_tokens question
  match year with
  | some y => do
      let first_ents ← pyGet entity_ids 0
      let c := find_relevant_subgraph_cqwn env template_num (first_ents.take env.entities_to_leave)
        (top_rels.take env.rels_to_leave) y
      if c.isEmpty then
        match ranked_ex_rels with
        | some ex_rels =>
            pure (find_relevant_subgraph_cqwn env template_num
              (first_ents.take env.entities_to_leave) ex_rels y)
        | none => Except.error "UnboundLocalError"
      else pure c
  | none =>
      match number with
      | some nb => do
          let first_ents ← pyGet entity_ids 0
          let c := find_relevant_subgraph_cqwn env template_num (first_ents.take env.entities_to_leave)
            (top_rels.take env.rels_to_leave) nb
          if c.isEmpty then
            match ranked_ex_rels with
            | some ex_rels =>
                pure (find_relevant_subgraph_cqwn env template_num
                  (first_ents.take env.entities_to_leave) ex_rels nb)
            | none => Except.error "UnboundLocalError"
          else pure c
      | none => pure []

/-- `complex_question_with_qualifier_solver` (templates 2/3). -/
def complex_question_with_qualifier_solver (env : Env) (template_num : Nat) (question : String)
    (entity_ids : List (List String))
    (rels_from_template : Option (List (List String))) : Except String (List Output) := do
  let top_rels ←
    match rels_from_template with
    | some rfts => do
        let first ← pyGet rfts 0
        pure first.dropLast
    | none => do
        let first_ents ← pyGet entity_ids 0
        let ex_rels := ((first_ents.take env.entities_to_leave).flatMap fun entity =>
          env.wp_rels "forw" entity none none (some "direct") none).dedup
        pure ((env.rank_rels question ex_rels).map Prod.fst)
  if entity_ids.length > 1 then
    pure (find_relevant_subgraph_cqwq env template_num (make_entity_combs entity_ids)
      (top_rels.take env.rels_to_leave))
  else pure []

/-- One entity's (relation × direction) loop of the count solver: `answers`
accumulates across the whole loop, and a `(rel, str(len(answers)))` pair is
emitted after every step whose running total is nonzero. -/
def count_pairs (env : Env) (entity : String) :
    List (String × String) → List String → List Output
  | [], _ => []
  | (rel, direction) :: rest, answers =>
      let answers := answers ++ env.wp_objects direction entity (some rel) none (some "direct") none
      (if answers.length > 0 then [[rel, toString answers.length]] else []) ++
        count_pairs env entity rest answers

/-- `questions_with_count_solver` (template 4). -/
def questions_with_count_solver (env : Env) (question : String)
    (entity_ids : List (List String))
    (rels_from_template : Option (List (List String))) : Except String (List Output) := do
  let (top_rels, directions) ←
    match rels_from_template with
    | some rfts => do
        let first ← pyGet rfts 0
        let d ← pyLast first
        pure (first.dropLast, [d])
    | none => do
        let ex_rels := (entity_ids.flatMap fun entity_id =>
          (entity_id.take env.entities_to_leave).flatMap fun entity =>
            env.wp_rels "forw" entity none none (some "direct") none ++
            env.wp_rels "backw" entity none none (some "direct") none).dedup
        pure ((env.rank_rels question ex_rels).map Prod.fst, ["forw", "backw"])
  pure (entity_ids.flatMap fun entity_id =>
    (entity_id.take env.entities_to_leave).flatMap fun entity =>
      count_pairs env entity
        ((top_rels.take env.rels_to_leave).flatMap fun rel => directions.map fun d => (rel, d)) [])

/-- `maxmin_one_entity_solver` (template 5): rank (or take from the template),
search with short-circuit, sort ascending when the asc/desc classifier says
ascending (`reverse=True` initially, cleared on an ascending cue), drop the
value, keep the first output. -/
def maxmin_one_entity_solver (env : Env) (question : String) (entities_list : List String)
    (rels_from_template : Option (List (List String))) : Except String (List Output) := do
  let top_rels ←
    match rels_from_template with
    | some rfts => do
        let first ← pyGet rfts 0
        pure first.dropLast
    | none => pure ((env.rank_rels question env.rank_list_0).map Prod.fst)
  let ascending := env.asc_desc question
  let cands ← find_relevant_subgraph_maxmin_one env top_rels entities_list
  let reverse := if ascending then false else true
  let sorted := pySortBy (fun x : String × String × ℚ => x.2.2) reverse cands
  let outputs := sorted.map fun o => [o.1, o.2.1]
  pure (if outputs.isEmpty then outputs else [outputs.headD []])

/-- `maxmin_two_entities_solver` (template 6): note the `reverse` flag is
initialised `False` and set on an ascending cue — the opposite of the
one-entity solver. -/
def maxmin_two_entities_solver (env : Env) (question : String)
    (entity_ids : List (List String))
    (rels_from_template : Option (List (List String))) : Except String (List Output) := do
  let (top_rels_1, top_rels_2) ←
    match rels_from_template with
    | some rfts => do
        let first ← pyGet rfts 0
        let second ← pyGet rfts 1
        pure (first.dropLast, second.dropLast)
    | none => do
        let ex_rels := (entity_ids.flatMap fun entities_list =>
          entities_list.flatMap fun entity =>
            env.wp_rels "backw" entity none none (some "direct") none).dedup
        pure ((env.rank_rels question ex_rels).map Prod.fst,
              (env.rank_rels question env.rank_list_1).map Prod.fst)
  let sorted_cands ←
    if entity_ids.length > 1 then do
      let ent_combs := make_entity_combs entity_ids
      let cands ← find_relevant_subgraph_maxmin_two env (top_rels_1.take env.rels_to_leave)
        (top_rels_2.take env.rels_to_leave) ent_combs
      let ascending := env.asc_desc question
      let reverse := if ascending then true else false
      pure (pySortBy (fun x : String × String × String × ℚ => x.2.2.2) reverse cands)
    else pure []
  let outputs := sorted_cands.map fun o => [o.1, o.2.1, o.2.2.1]
  pure (if outputs.isEmpty then outputs else [outputs.headD []])

/-- `from_template_one_ent`: template-relation chains for one entity; each
block returns on the first nonempty traversal (early return). -/
def from_template_one_ent (env : Env) (entity_ids : List (List String))
    (rfts : List (List String)) : Except String (List Output) := do
  if rfts.length = 1 then do
    let first ← pyGet rfts 0
    let direction ← pyLast first
    let relations := first.dropLast
    let found := (entity_ids.headD []).findSome? fun entity =>
      relations.findSome? fun relation =>
        let objects := env.wp_objects direction entity (some relation) none (some "direct") none
        if objects.isEmpty then none else some [relation, objects.headD ""]
    match found with
    | some out => pure [out]
    | none => pure []
  else if rfts.length = 2 then do
    let first ← pyGet rfts 0
    let second ← pyGet rfts 1
    let direction_1 ← pyLast first
    let relations_1 := first.dropLast
    let direction_2 ← pyLast second
    let relations_2 := second.dropLast
    let found := (entity_ids.headD []).findSome? fun entity =>
      relations_1.findSome? fun relation_1 =>
        (env.wp_objects direction_1 entity (some relation_1) none (some "direct") none).findSome?
          fun object_1 =>
            relations_2.findSome? fun relation_2 =>
              let objects_2 := env.wp_objects direction_2 object_1 (some relation_2) none (some "direct") none
              if objects_2.isEmpty then none else some [relation_1, relation_2, objects_2.headD ""]
    match found with
    | some out => pure [out]
    | none => pure []
  else pure []

/-- `from_template_two_ent`: template-relation chains over the entity
combinations; early return on the first nonempty join. -/
def from_template_two_ent (env : Env) (ent_combs : List (List String))
    (rfts : List (List String)) : Except String (List Output) := do
  if rfts.length = 1 then do
    let first ← pyGet rfts 0
    let direction ← pyLast first
    let relations := first.dropLast
    let found := ent_combs.findSome? fun ent_comb =>
      relations.findSome? fun relation =>
        (env.wp_objects direction (ent_comb.getD 1 "") (some relation) none (some "direct") none).findSome?
          fun object_1 =>
            let objects_2 := env.wp_objects direction object_1 (some "P31") (some (ent_comb.getD 0 ""))
              (some "direct") none
            if objects_2.isEmpty then none else some [relation, objects_2.headD ""]
    match found with
    | some out => pure [out]
    | none => pure []
  else if rfts.length = 2 then do
    let first ← pyGet rfts 0
    let second ← pyGet rfts 1
    let direction_1 ← pyLast first
    let relations_1 := first.dropLast
    let direction_2 ← pyLast second
    let relations_2 := second.dropLast
    let found := ent_combs.findSome? fun ent_comb =>
      relations_1.findSome? fun relation_1 =>
        relations_2.findSome? fun relation_2 =>
          let objects_1 := env.wp_objects direction_1 (ent_comb.getD 0 "") (some relation_1) none (some "direct") none
          let objects_2 := env.wp_objects direction_2 (ent_comb.getD 1 "") (some relation_2) none (some "direct") none
          let objects_intersect := pySetInter objects_1 objects_2
          if objects_intersect.isEmpty then none
          else some [relation_1, relation_2, objects_intersect.headD ""]
    match found with
    | some out => pure [out]
    | none => pure []
  else pure []

/-- `two_hop_two_ent`: per combination, rank the second entity's
neighborhood; the first (relation, middle object) whose middle object links
to the first entity wins, and all of its linking relations are emitted —
a 2-tuple when the linking relation is `P31`, otherwise a 3-tuple. -/
def two_hop_two_ent (env : Env) (question : String) (ent_combs : List (List String)) : List Output :=
  let found := ent_combs.findSome? fun ent_comb =>
    let ex_rels := (env.wp_rels "forw" (ent_comb.getD 1 "") none none (some "direct") none ++
                    env.wp_rels "backw" (ent_comb.getD 1 "") none none (some "direct") none).dedup
    let top_rels := (env.rank_rels question ex_rels).map Prod.fst
    top_rels.findSome? fun rel =>
      let objects_1 := env.wp_objects "forw" (ent_comb.getD 1 "") (some rel) none (some "direct") none ++
                       env.wp_objects "backw" (ent_comb.getD 1 "") (some rel) none (some "direct") none
      objects_1.findSome? fun object_1 =>
        let objects_2 := env.wp_rels "forw" object_1 none (some (ent_comb.getD 0 "")) (some "direct") none
        if objects_2.isEmpty then none
        else some (objects_2.map fun object_2 =>
          if object_2 ≠ "P31" then [rel, object_2, object_1] else [rel, object_1])
  match found with
  | some outs => outs
  | none => []

/-- `two_hop_cqwn`: numeric one-entity two-hop; the first answer object with
a relation matching the numeric filter wins and all of its matching
relations are emitted. -/
def two_hop_cqwn (env : Env) (entities_list rels : List String) (num : String) : List Output :=
  let found := entities_list.findSome? fun entity =>
    rels.findSome? fun rel =>
      (env.wp_objects "forw" entity (some rel) none (some "direct") none).findSome? fun ans =>
        let second_rels := env.wp_rels "forw" ans none none (some "direct") (some num)
        if second_rels.isEmpty then none
        else some (second_rels.map fun second_rel => [rel, second_rel, ans])
  match found with
  | some outs => outs
  | none => []

/-- `two_hop_one_ent`: gather and rank the forward+backward neighborhood;
with a year (clipped to its leading three characters) or a number run the
numeric two-hop, otherwise run the two accumulation passes (1-relation
candidates, then second-hop 2-relation candidates over middle-object sets
smaller than 15) and concatenate them. -/
def two_hop_one_ent (env : Env) (question : String) (entities_list : List String) : List Output :=
  let question_tokens := env.word_tokenize question
  let year := env.extract_year question_tokens question
  let number := if year.isSome then none else env.extract_number question_tokens question
  let ents := entities_list.take env.entities_to_leave
  let ex_rels := (ents.flatMap fun entity =>
    env.wp_rels "forw" entity none none (some "direct") none ++
    env.wp_rels "backw" entity none none (some "direct") none).dedup
  let top_rels := (env.rank_rels question ex_rels).map Prod.fst
  match year with
  | some y => two_hop_cqwn env ents top_rels (y.take 3)
  | none =>
      match number with
      | some nb => two_hop_cqwn env ents top_rels nb
      | none =>
          let ex_rels_2 := (ents.flatMap fun entity =>
            (top_rels.take env.rels_to_leave_2hop).flatMap fun rel =>
              if rel ≠ "P31" then
                let objects_mid := env.wp_objects "forw" entity (some rel) none (some "direct") none ++
                                   env.wp_objects "backw" entity (some rel) none (some "direct") none
                if objects_mid.length < 15 then
                  objects_mid.flatMap fun obj => env.wp_rels "forw" obj none none (some "direct") none
                else []
              else []).dedup
          let top_rels_2 := (env.rank_rels question ex_rels_2).map Prod.fst
          let pass_one := ents.flatMap fun entity =>
            (top_rels.take env.rels_to_leave_2hop).flatMap fun rel =>
              if rel ≠ "P31" then
                let objects := env.wp_objects "forw" entity (some rel) none (some "direct") none ++
                               env.wp_objects "backw" entity (some rel) none (some "direct") none
                if objects.isEmpty then [] else [[rel, objects.headD ""]]
              else []
          let pass_two := ents.flatMap fun entity =>
            (top_rels.take env.rels_to_leave_2hop).flatMap fun rel_1 =>
              if rel_1 ≠ "P31" then
                let objects_mid := env.wp_objects "forw" entity (some rel_1) none (some "direct") none ++
                                   env.wp_objects "backw" entity (some rel_1) none (some "direct") none
                if ¬ objects_mid.isEmpty ∧ objects_mid.length < 15 then
                  objects_mid.flatMap fun obj =>
                    (top_rels_2.take env.rels_to_leave_2hop).flatMap fun rel_2 =>
                      if rel_2 ≠ "P31" ∧ rel_1 ≠ rel_2 then
                        let objects := env.wp_objects "forw" obj (some rel_2) none (some "direct") none
                        if objects.isEmpty then [] else [[rel_1, rel_2, objects.headD ""]]
                      else []
                else []
              else []
          pass_one ++ pass_two

/-- `two_hop_solver` (template 7): one-entity and two-entity searches, with
the three-list retry (lists 1 and 3) and the not-three-lists fallback to the
one-entity search on list 2. -/
def two_hop_solver (env : Env) (question : String) (entity_ids : List (List String))
    (rels_from_template : Option (List (List String))) : Except String (List Output) :=
  match entity_ids with
  | [] => pure []
  | [l1] =>
      match rels_from_template with
      | some rfts => from_template_one_ent env [l1] rfts
      | none => pure (two_hop_one_ent env question l1)
  | l1 :: l2 :: rest =>
      let ent_combs := make_entity_combs [l1, l2]
      match rels_from_template with
      | some rfts => from_template_two_ent env ent_combs rfts
      | none =>
          let c := two_hop_two_ent env question ent_combs
          if c.isEmpty then
            match rest with
            | [l3] => pure (two_hop_two_ent env question (make_entity_combs [l1, l3]))
            | _ => pure (two_hop_one_ent env question l2)
          else pure c

/-- `find_candidate_answers`: the dispatcher.  `template_num` is the active
template; a solver for templates 0–3 that comes back empty rewrites it to 7
(the following `if` chain then runs the generic two-hop solver), and an
empty template-6 result reruns the one-entity max/min solver on the first
entity list. -/
def find_candidate_answers (env : Env) (template_num : Nat) (question : String)
    (entity_ids : List (List String))
    (rels_from_template : Option (List (List String))) : Except String (List Output) := do
  let (c1, t1) ←
    if template_num = 0 ∨ template_num = 1 then do
      let c ← complex_question_with_number_solver env template_num question entity_ids none
      pure (c, if c.isEmpty then 7 else template_num)
    else pure (([] : List Output), template_num)
  let (c2, t2) ←
    if t1 = 2 ∨ t1 = 3 then do
      let c ← complex_question_with_qualifier_solver env t1 question entity_ids none
      pure (c, if c.isEmpty then 7 else t1)
    else pure (c1, t1)
  let (c3, t3) ←
    if t2 = 4 then do
      let c ← questions_with_count_solver env question entity_ids none
      pure (c, t2)
    else pure (c2, t2)
  let (c4, t4) ←
    if t3 = 5 then do
      let first_ents ← pyGet entity_ids 0
      let c ← maxmin_one_entity_solver env question (first_ents.take env.entities_to_leave)
        rels_from_template
      pure (c, t3)
    else pure (c3, t3)
  let (c5, t5) ←
    if t4 = 6 then do
      let c ← maxmin_two_entities_solver env question entity_ids rels_from_template
      if c.isEmpty then do
        let first_ents ← pyGet entity_ids 0
        let c' ← maxmin_one_entity_solver env question (first_ents.take env.entities_to_leave) none
        pure (c', 5)
      else pure (c, t4)
    else pure (c4, t4)
  if t5 = 7 then two_hop_solver env question entity_ids rels_from_template
  else pure c5

/-! Concrete environments used to evaluate the code on specific inputs. -/

/-- A baseline environment: every knowledge-graph access is empty, the
ranker keeps its input order, no year/number is extracted, the question is
classified descending, and the configuration uses the constructor defaults
(`entities_to_leave=5`, `rels_to_leave=10`, `rels_to_leave_2hop=7`). -/
def env0 : Env :=
  { wp_rels := fun _ _ _ _ _ _ => []
    wp_objects := fun _ _ _ _ _ _ => []
    wp_triplets := fun _ _ _ => []
    rank_rels := fun _ cands => cands.map fun r => (r, 0)
    linker := fun _ => ([], [])
    word_tokenize := fun _ => []
    extract_year := fun _ _ => none
    extract_number := fun _ _ => none
    asc_desc := fun _ => false
    rank_list_0 := []
    rank_list_1 := []
    entities_to_leave := 5
    rels_to_leave := 10
    rels_to_leave_2hop := 7 }

/-- Template-6 fixture: the question is classified ascending; the joint
candidate set holds objects `O1` (value 1.0) and `O2` (value 2.0) under the
relation pair (`RB1`, `RV`). -/
def envC1 : Env :=
  { env0 with
    asc_desc := fun _ => true
    rank_list_1 := ["RV"]
    wp_rels := fun dir ent _ _ _ _ => if dir = "backw" ∧ ent = "A" then ["RB1"] else []
    wp_objects := fun dir ent rel _ _ fo =>
      if dir = "backw" ∧ ent = "A" ∧ rel = some "P31" then ["O1", "O2"]
      else if dir = "backw" ∧ ent = "B" ∧ rel = some "RB1" then ["O1", "O2"]
      else if dir = "forw" ∧ ent = "O1" ∧ rel = some "RV" ∧ fo = some xsdDecimal then ["\"1.0\""]
      else if dir = "forw" ∧ ent = "O2" ∧ rel = some "RV" ∧ fo = some xsdDecimal then ["\"2.0\""]
      else [] }

/-- Count fixture: entity `E` has ranked relations `R1`, `R2`; only
(`E`, `R1`, forward) reaches objects, namely two of them. -/
def envC2 : Env :=
  { env0 with
    wp_rels := fun dir ent _ _ _ _ => if dir = "forw" ∧ ent = "E" then ["R1", "R2"] else []
    wp_objects := fun dir ent rel _ _ _ =>
      if dir = "forw" ∧ ent = "E" ∧ rel = some "R1" then ["A", "B"] else [] }

/-- Template-0 fixture: the gathered+ranked relation `RG` leads through
statement node `S1` to answer `ANS` with qualifier `PQ` for year 2001; the
template-supplied relation `RT` reaches nothing. -/
def envC4 : Env :=
  { env0 with
    extract_year := fun _ _ => some "2001"
    wp_rels := fun dir ent _ _ tor fo =>
      if dir = "forw" ∧ ent = "E" ∧ tor = some "direct" then ["RG"]
      else if dir = "forw" ∧ ent = "S1" ∧ tor = some "qualifier" ∧ fo = some "2001" then ["PQ"]
      else []
    wp_objects := fun dir ent rel _ tor _ =>
      if dir = "forw" ∧ ent = "E" ∧ rel = some "RG" ∧ tor = none then ["S1"]
      else if dir = "forw" ∧ ent = "S1" ∧ rel = some "RG" ∧ tor = some "statement" then ["ANS"]
      else [] }

/-- Truncation fixture with `rels_to_leave = 1`: the ranker yields
`[RA, RB]`; only the second-ranked `RB` reaches a middle object that joins
to the first entity. -/
def envC5 : Env :=
  { env0 with
    rels_to_leave := 1
    wp_rels := fun dir ent _ obj _ _ =>
      if dir = "forw" ∧ ent = "B1" ∧ obj = none then ["RA", "RB"]
      else if dir = "forw" ∧ ent = "O1" ∧ obj = some "A1" then ["P17"]
      else []
    wp_objects := fun dir ent rel _ _ _ =>
      if dir = "forw" ∧ ent = "B1" ∧ rel = some "RB" then ["O1"] else [] }

/-- `envC5` with its ranker output already truncated to `rels_to_leave`
entries: what the ranked-relation flow would see if the solver truncated. -/
def envC5trunc : Env :=
  { envC5 with rank_rels := fun q cands => (envC5.rank_rels q cands).take envC5.rels_to_leave }

/-- Malformed-literal fixture: the decimal-typed object of class member `C`
is the quoteless string `abc`. -/
def envC7 : Env :=
  { env0 with
    rank_list_0 := ["R"]
    wp_objects := fun dir ent rel _ _ fo =>
      if dir = "backw" ∧ ent = "E" ∧ rel = some "P31" then ["C"]
      else if dir = "forw" ∧ ent = "C" ∧ rel = some "R" ∧ fo = some xsdDecimal then ["abc"]
      else [] }

/-- Mixed-arity fixture: the middle object `O1` joins to the first entity
through both `P17` and `P31`, so the winning group emits a 3-tuple and a
2-tuple. -/
def envC8 : Env :=
  { env0 with
    wp_rels := fun dir ent _ obj _ _ =>
      if dir = "forw" ∧ ent = "B" ∧ obj = none then ["R"]
      else if dir = "forw" ∧ ent = "O1" ∧ obj = some "A" then ["P17", "P31"]
      else []
    wp_objects := fun dir ent rel _ _ _ =>
      if dir = "forw" ∧ ent = "B" ∧ rel = some "R" then ["O1"] else [] }

/-- Three-entity fixture: both two-entity searches are empty (`B`'s middle
object `O` does not join to `A`, and `C` has no relations), while the
one-entity search on `B`'s list succeeds. -/
def envC9 : Env :=
  { env0 with
    wp_rels := fun dir ent _ obj _ _ =>
      if dir = "forw" ∧ ent = "B" ∧ obj = none then ["RB"] else []
    wp_objects := fun dir ent rel _ _ _ =>
      if dir = "forw" ∧ ent = "B" ∧ rel = some "RB" then ["O"] else [] }

/-- A ranker that always returns ten scored relations: its output length
meets the default `rels_to_leave` bound for every input. -/
def envW5 : Env :=
  { env0 with rank_rels := fun _ _ => List.replicate 10 ("R", (0 : ℤ)) }

/-- Decidable equality for `Except`, used to evaluate the solvers on the
concrete environments. -/
instance instDecEqExcept [DecidableEq ε] [DecidableEq α] : DecidableEq (Except ε α)
  | Except.ok a, Except.ok b =>
      if h : a = b then isTrue (by rw [h]) else isFalse (by intro hc; cases hc; exact h rfl)
  | Except.error a, Except.error b =>
      if h : a = b then isTrue (by rw [h]) else isFalse (by intro hc; cases hc; exact h rfl)
  | Except.ok _, Except.error _ => isFalse (by intro hc; cases hc)
  | Except.error _, Except.ok _ => isFalse (by intro hc; cases hc)

/-! Helper lemmas for unfolding `Except` computations. -/

theorem ok_bind (a : α) (f : α → Except String β) : (Except.ok a >>= f) = f a := rfl

theorem error_bind (e : String) (f : α → Except String β) :
    ((Except.error e : Except String α) >>= f) = Except.error e := rfl

theorem pure_ok (a : α) : (pure a : Except String α) = Except.ok a := rfl

/-! Claim theorems. -/

/-- C1: on `envC1` the question is classified ascending and the candidate
set selected by the short-circuit rule holds the values 1.0 (object `O1`)
and 2.0 (object `O2`), yet `maxmin_two_entities_solver` (template 6) returns
the maximum-valued candidate `O2`, not the minimum as the claim states: the
solver initialises `reverse=False` and sets it on an ascending cue, the
exact opposite of the one-entity solver. -/
theorem C1_maxmin_two_returns_max_on_ascending :
    envC1.asc_desc "q" = true ∧
    find_relevant_subgraph_maxmin_two envC1 ["RB1"] ["RV"] [["A", "B"]] =
      Except.ok [("RB1", "RV", "O1", (1 : ℚ)), ("RB1", "RV", "O2", (2 : ℚ))] ∧
    maxmin_two_entities_solver envC1 "q" [["A"], ["B"]] none =
      Except.ok [["RB1", "RV", "O2"]] := by
  refine ⟨rfl, by decide, by decide⟩

/-- C2: on `envC2` only the combination (`E`, `R1`, forward) has a nonempty
reachable set (of size 2); the claim therefore predicts the single tuple
`(R1, "2")`.  The code instead accumulates `answers` across all relations
and directions of the entity and emits one tuple after every step whose
running total is nonzero, producing four tuples, three of them for
combinations whose own reachable set is empty. -/
theorem C2_count_solver_cumulative_counts :
    envC2.wp_objects "forw" "E" (some "R1") none (some "direct") none = ["A", "B"] ∧
    envC2.wp_objects "backw" "E" (some "R1") none (some "direct") none = [] ∧
    envC2.wp_objects "forw" "E" (some "R2") none (some "direct") none = [] ∧
    envC2.wp_objects "backw" "E" (some "R2") none (some "direct") none = [] ∧
    questions_with_count_solver envC2 "q" [["E"]] none =
      Except.ok [["R1", "2"], ["R1", "2"], ["R2", "2"], ["R2", "2"]] := by
  refine ⟨rfl, rfl, rfl, rfl, by decide⟩

/-- C7: on `envC7` the decimal-typed object fetched for class member `C` is
the quoteless literal `abc`; `re.search(..).group(1)` raises
`AttributeError` and the exception propagates out of the max/min solver,
contradicting the claim that a malformed literal contributes nothing and
never raises. -/
theorem C7_malformed_literal_raises :
    envC7.wp_objects "forw" "C" (some "R") none (some "direct") (some xsdDecimal) = ["abc"] ∧
    find_relevant_subgraph_maxmin_one envC7 ["R"] ["E"] = Except.error "AttributeError" ∧
    maxmin_one_entity_solver envC7 "q" ["E"] none = Except.error "AttributeError" := by
  refine ⟨rfl, by decide, by decide⟩

/-- C4 counterexample: dispatched as template 0 with the template-supplied
relation spec `[RT, forw]`, the solver's output uses the gathered+ranked
relation `RG`, while the supplied relation `RT` — which the claim says is
used verbatim instead of gathering and ranking — reaches nothing: the
dispatcher never forwards the specs to the solvers of templates 0–4. -/
theorem C4_template_rels_not_forwarded_cex :
    find_candidate_answers envC4 0 "q" [["E"]] (some [["RT", "forw"]]) =
      Except.ok [["RG", "PQ", "ANS"]] ∧
    find_relevant_subgraph_cqwn envC4 0 ["E"] ["RT"] "2001" = [] := by
  refine ⟨by decide, by decide⟩

/-- C5 counterexample: on `envC5` (`rels_to_leave = 1`, ranker output
`[RA, RB]`) the two-entity two-hop search succeeds through the second-ranked
relation `RB`; with a ranker already truncated to the leading
`rels_to_leave` entries the identical call is empty: the search passes the
full ranked list to the KG-access traversal. -/
theorem C5_two_hop_two_ent_no_truncation_cex :
    envC5.rels_to_leave = 1 ∧
    two_hop_two_ent envC5 "q" (make_entity_combs [["A1"], ["B1"]]) = [["RB", "P17", "O1"]] ∧
    two_hop_two_ent envC5trunc "q" (make_entity_combs [["A1"], ["B1"]]) = [] := by
  refine ⟨rfl, by decide, by decide⟩

/-- C8 counterexample: dispatched as template 7 on `envC8`, a single run
returns a 3-tuple and a 2-tuple side by side (the joining relation set of
`O1` holds both `P17` and the special-cased `P31`): the output arity is
polymorphic within one template's output set. -/
theorem C8_two_hop_mixed_arity_cex :
    find_candidate_answers envC8 7 "q" [["A"], ["B"]] none =
      Except.ok [["R", "P17", "O1"], ["R", "O1"]] ∧
    ([["R", "P17", "O1"], ["R", "O1"]] : List Output).map List.length = [3, 2] := by
  refine ⟨by decide, rfl⟩

/-- C9 counterexample: on `envC9` with three entity lists both two-entity
searches are empty and the solver returns the empty list, although the
one-entity search on the second entity list succeeds: contrary to the
claim, an empty 1-&-3 retry does not fall back to the one-entity search. -/
theorem C9_three_entity_no_one_ent_fallback_cex :
    two_hop_solver envC9 "q" [["A"], ["B"], ["C"]] none = Except.ok [] ∧
    two_hop_one_ent envC9 "q" ["B"] = [["RB", "O"]] := by
  refine ⟨by decide, by decide⟩

/-- C9 (amended): with no template relations, an empty two-entity search
over lists 1 and 2 is retried pairing list 1 with list 3 when exactly three
lists are given, and that retry's result — empty or not — is final; the
fallback to the one-entity search on list 2 runs only when the list count
is not three (here: two lists). -/
theorem C9_three_entity_retry_final :
    (∀ (env : Env) (q : String) (l1 l2 l3 : List String),
      two_hop_two_ent env q (make_entity_combs [l1, l2]) = [] →
      two_hop_solver env q [l1, l2, l3] none =
        Except.ok (two_hop_two_ent env q (make_entity_combs [l1, l3]))) ∧
    (∀ (env : Env) (q : String) (l1 l2 : List String),
      two_hop_two_ent env q (make_entity_combs [l1, l2]) = [] →
      two_hop_solver env q [l1, l2] none = Except.ok (two_hop_one_ent env q l2)) := by
  constructor
  · intro env q l1 l2 l3 h
    simp [two_hop_solver, h, pure_ok]
  · intro env q l1 l2 h
    simp [two_hop_solver, h, pure_ok]

/-- Witness for C9's amended theorem at `envC9`. -/
theorem C9_three_entity_retry_final_witness :
    two_hop_solver envC9 "q" [["A"], ["B"], ["C"]] none =
      Except.ok (two_hop_two_ent envC9 "q" (make_entity_combs [["A"], ["C"]])) :=
  C9_three_entity_retry_final.1 envC9 "q" ["A"] ["B"] ["C"] (by decide)

/-- C10: with no template relations and at least four entity-ID lists, the
generic two-hop solver reads only the first two lists: the `len == 3` retry
branch is skipped and the on-empty fallback runs the one-entity search on
list 2, so two inputs agreeing on the first two lists give identical
results. -/
theorem C10_two_hop_depends_on_first_two_lists (env : Env) (q : String)
    (l1 l2 : List String) (r r' : List (List String))
    (hr : 2 ≤ r.length) (hr' : 2 ≤ r'.length) :
    two_hop_solver env q (l1 :: l2 :: r) none = two_hop_solver env q (l1 :: l2 :: r') none := by
  rcases r with _ | ⟨x, _ | ⟨y, t⟩⟩
  · exact absurd hr (by simp)
  · exact absurd hr (by simp)
  · rcases r' with _ | ⟨x', _ | ⟨y', t'⟩⟩
    · exact absurd hr' (by simp)
    · exact absurd hr' (by simp)
    · simp [two_hop_solver]

/-- Witness for C10 at `env0` on two four-list inputs agreeing on the first
two lists. -/
theorem C10_two_hop_depends_on_first_two_lists_witness :
    two_hop_solver env0 "q" [["A"], ["B"], ["C"], ["D"]] none =
      two_hop_solver env0 "q" [["A"], ["B"], ["X"], ["Y"]] none :=
  C10_two_hop_depends_on_first_two_lists env0 "q" ["A"] ["B"] [["C"], ["D"]] [["X"], ["Y"]]
    (by decide) (by decide)

/-- C3: the dispatcher's fallback table.  An empty template-0/1 or -2/3
result re-dispatches the same question and entity ids to the generic
two-hop strategy (whose result becomes the output); an empty template-6
result reruns the one-entity max/min solver on the first entity list with
no template relations; templates 4, 5 and 7 return their solver's result
with no further redirect, empty or not. -/
theorem C3_dispatcher_fallback_table :
    (∀ (env : Env) (q : String) (eids : List (List String))
        (rft : Option (List (List String))) (t : Nat), (t = 0 ∨ t = 1) →
      complex_question_with_number_solver env t q eids none = Except.ok [] →
      find_candidate_answers env t q eids rft = two_hop_solver env q eids rft) ∧
    (∀ (env : Env) (q : String) (eids : List (List String))
        (rft : Option (List (List String))) (t : Nat), (t = 2 ∨ t = 3) →
      complex_question_with_qualifier_solver env t q eids none = Except.ok [] →
      find_candidate_answers env t q eids rft = two_hop_solver env q eids rft) ∧
    (∀ (env : Env) (q : String) (eids : List (List String))
        (rft : Option (List (List String))),
      find_candidate_answers env 4 q eids rft = questions_with_count_solver env q eids none) ∧
    (∀ (env : Env) (q : String) (eids : List (List String))
        (rft : Option (List (List String))) (fe : List String),
      pyGet eids 0 = Except.ok fe →
      find_candidate_answers env 5 q eids rft =
        maxmin_one_entity_solver env q (fe.take env.entities_to_leave) rft) ∧
    (∀ (env : Env) (q : String) (eids : List (List String))
        (rft : Option (List (List String))) (fe : List String),
      pyGet eids 0 = Except.ok fe →
      maxmin_two_entities_solver env q eids rft = Except.ok [] →
      find_candidate_answers env 6 q eids rft =
        maxmin_one_entity_solver env q (fe.take env.entities_to_leave) none) ∧
    (∀ (env : Env) (q : String) (eids : List (List String))
        (rft : Option (List (List String))),
      find_candidate_answers env 7 q eids rft = two_hop_solver env q eids rft) := by
  refine ⟨?_, ?_, ?_, ?_, ?_, ?_⟩
  · intro env q eids rft t ht h
    rcases ht with rfl | rfl <;>
      simp [find_candidate_answers, h, ok_bind, error_bind, pure_ok]
  · intro env q eids rft t ht h
    rcases ht with rfl | rfl <;>
      simp [find_candidate_answers, h, ok_bind, error_bind, pure_ok]
  · intro env q eids rft
    cases hc : questions_with_count_solver env q eids none <;>
      simp [find_candidate_answers, hc, ok_bind, error_bind, pure_ok]
  · intro env q eids rft fe hg
    cases hm : maxmin_one_entity_solver env q (fe.take env.entities_to_leave) rft <;>
      simp [find_candidate_answers, hg, hm, ok_bind, error_bind, pure_ok]
  · intro env q eids rft fe hg h6
    cases hm : maxmin_one_entity_solver env q (fe.take env.entities_to_leave) none <;>
      simp [find_candidate_answers, hg, h6, hm, ok_bind, error_bind, pure_ok]
  · intro env q eids rft
    simp [find_candidate_answers, ok_bind, error_bind, pure_ok]

/-- Witness for C3 at `env0` with template 0: the numeric-qualifier solver
is empty, and the dispatcher's result is the two-hop solver's. -/
theorem C3_dispatcher_fallback_table_witness :
    find_candidate_answers env0 0 "q" [["E"]] none = two_hop_solver env0 "q" [["E"]] none :=
  C3_dispatcher_fallback_table.1 env0 "q" [["E"]] none 0 (Or.inl rfl) (by decide)

/-- C4 (amended): for templates 0–4 the dispatcher invokes the solver
without the template-supplied relation specs, so relations are always
gathered and ranked; the supplied specs influence the result only through
the on-empty redirect to the two-hop strategy (templates 0–3) and never for
template 4. -/
theorem C4_dispatcher_ignores_template_rels :
    (∀ (env : Env) (q : String) (eids : List (List String))
        (rfts : List (List String)),
      find_candidate_answers env 4 q eids (some rfts) =
        find_candidate_answers env 4 q eids none) ∧
    (∀ (env : Env) (q : String) (eids : List (List String))
        (rft : Option (List (List String))) (t : Nat) (c : List Output), (t = 0 ∨ t = 1) →
      complex_question_with_number_solver env t q eids none = Except.ok c → c ≠ [] →
      find_candidate_answers env t q eids rft = Except.ok c) ∧
    (∀ (env : Env) (q : String) (eids : List (List String))
        (rft : Option (List (List String))) (t : Nat) (c : List Output), (t = 2 ∨ t = 3) →
      complex_question_with_qualifier_solver env t q eids none = Except.ok c → c ≠ [] →
      find_candidate_answers env t q eids rft = Except.ok c) := by
  refine ⟨?_, ?_, ?_⟩
  · intro env q eids rfts
    cases hc : questions_with_count_solver env q eids none <;>
      simp [find_candidate_answers, hc, ok_bind, error_bind, pure_ok]
  · intro env q eids rft t c ht h hne
    rcases ht with rfl | rfl <;>
      simp [find_candidate_answers, h, hne, ok_bind, error_bind, pure_ok]
  · intro env q eids rft t c ht h hne
    rcases ht with rfl | rfl <;>
      simp [find_candidate_answers, h, hne, ok_bind, error_bind, pure_ok]

/-- Witness for C4's amended theorem at `envC4`: the template matcher
supplied `[RT, forw]`, yet the template-0 output is the gathered+ranked
relation's. -/
theorem C4_dispatcher_ignores_template_rels_witness :
    find_candidate_answers envC4 0 "q" [["E"]] (some [["RT", "forw"]]) =
      Except.ok [["RG", "PQ", "ANS"]] :=
  C4_dispatcher_ignores_template_rels.2.1 envC4 "q" [["E"]] (some [["RT", "forw"]]) 0
    [["RG", "PQ", "ANS"]] (Or.inl rfl) (by decide) (by decide)

/-- The qualifier-join subgraph search never reads the ranker, so replacing
it leaves the search unchanged. -/
theorem fr_cqwq_rank_irrel (env : Env) (f : String → List String → List (String × ℤ))
    (t : Nat) (combs : List (List String)) (rels : List String) :
    find_relevant_subgraph_cqwq {env with rank_rels := f} t combs rels =
      find_relevant_subgraph_cqwq env t combs rels := rfl

/-- The count loop never reads the ranker, so replacing it leaves the loop
unchanged. -/
theorem count_pairs_rank_irrel (env : Env) (f : String → List String → List (String × ℤ))
    (e : String) :
    ∀ (p : List (String × String)) (a : List String),
      count_pairs {env with rank_rels := f} e p a = count_pairs env e p a := by
  intro p
  induction p with
  | nil => intro a; rfl
  | cons hd tl ih =>
      intro a
      cases hd with
      | mk r d => simp [count_pairs, ih]

/-- The numeric-qualifier subgraph search never reads the ranker, so
replacing it leaves the search unchanged. -/
theorem fr_cqwn_rank_irrel (env : Env) (f : String → List String → List (String × ℤ))
    (t : Nat) (els rels : List String) (num : String) :
    find_relevant_subgraph_cqwn {env with rank_rels := f} t els rels num =
      find_relevant_subgraph_cqwn env t els rels num := rfl

/-- The object loop of the max/min two-entity search never reads the
ranker. -/
theorem maxmin_two_objs_rank_irrel (env : Env) (f : String → List String → List (String × ℤ))
    (rel_1 rel_2 : String) :
    ∀ l, maxmin_two_objs {env with rank_rels := f} rel_1 rel_2 l =
      maxmin_two_objs env rel_1 rel_2 l := by
  intro l
  induction l with
  | nil => rfl
  | cons obj rest ih => simp [maxmin_two_objs, ih]

/-- The second-relation loop of the max/min two-entity search never reads
the ranker. -/
theorem maxmin_two_rels2_rank_irrel (env : Env) (f : String → List String → List (String × ℤ))
    (rel_1 : String) (inter : List String) :
    ∀ rels, maxmin_two_rels2 {env with rank_rels := f} rel_1 inter rels =
      maxmin_two_rels2 env rel_1 inter rels := by
  intro rels
  induction rels with
  | nil => rfl
  | cons rel_2 rest ih => simp [maxmin_two_rels2, maxmin_two_objs_rank_irrel, ih]

/-- The first-relation loop of the max/min two-entity search never reads
the ranker. -/
theorem maxmin_two_rels1_rank_irrel (env : Env) (f : String → List String → List (String × ℤ))
    (objects_1 : List String) (ent2 : String) (rels_2 : List String) :
    ∀ rels, maxmin_two_rels1 {env with rank_rels := f} objects_1 ent2 rels_2 rels =
      maxmin_two_rels1 env objects_1 ent2 rels_2 rels := by
  intro rels
  induction rels with
  | nil => rfl
  | cons rel_1 rest ih => simp [maxmin_two_rels1, maxmin_two_rels2_rank_irrel, ih]

/-- The max/min two-entity subgraph search never reads the ranker. -/
theorem fr_maxmin_two_rank_irrel (env : Env) (f : String → List String → List (String × ℤ))
    (rels_1 rels_2 : List String) :
    ∀ combs, find_relevant_subgraph_maxmin_two {env with rank_rels := f} rels_1 rels_2 combs =
      find_relevant_subgraph_maxmin_two env rels_1 rels_2 combs := by
  intro combs
  induction combs with
  | nil => rfl
  | cons comb rest ih =>
      simp [find_relevant_subgraph_maxmin_two, maxmin_two_rels1_rank_irrel, ih]

/-- C5 (amended): only the leading `rels_to_leave` entries of the ranked
relation list are passed to KG-access traversal in the numeric-qualifier
(templates 0/1 — their on-empty retry uses the unranked gathered vocabulary,
not ranker output), qualifier-join (templates 2/3), count (template 4) and
max/min two-entity (template 6) strategies, and the one-entity two-hop
accumulation passes use the `rels_to_leave_2hop` prefix of both ranked
lists; the two-entity two-hop search, by contrast, iterates the full ranked
list (see the counterexample).  Each positive part is stated as invariance
under appending extra entries to every ranker output already at least as
long as the relevant prefix bound. -/
theorem C5_truncation_in_ranked_solvers :
    (∀ (env : Env) (extra : List (String × ℤ)) (t : Nat) (q : String)
        (eids : List (List String)),
      (∀ cands, env.rels_to_leave ≤ (env.rank_rels q cands).length) →
      complex_question_with_number_solver
        {env with rank_rels := fun qq cands => env.rank_rels qq cands ++ extra} t q eids none =
      complex_question_with_number_solver env t q eids none) ∧
    (∀ (env : Env) (extra : List (String × ℤ)) (t : Nat) (q : String)
        (eids : List (List String)),
      (∀ cands, env.rels_to_leave ≤ (env.rank_rels q cands).length) →
      complex_question_with_qualifier_solver
        {env with rank_rels := fun qq cands => env.rank_rels qq cands ++ extra} t q eids none =
      complex_question_with_qualifier_solver env t q eids none) ∧
    (∀ (env : Env) (extra : List (String × ℤ)) (q : String) (eids : List (List String)),
      (∀ cands, env.rels_to_leave ≤ (env.rank_rels q cands).length) →
      questions_with_count_solver
        {env with rank_rels := fun qq cands => env.rank_rels qq cands ++ extra} q eids none =
      questions_with_count_solver env q eids none) ∧
    (∀ (env : Env) (extra : List (String × ℤ)) (q : String) (eids : List (List String)),
      (∀ cands, env.rels_to_leave ≤ (env.rank_rels q cands).length) →
      maxmin_two_entities_solver
        {env with rank_rels := fun qq cands => env.rank_rels qq cands ++ extra} q eids none =
      maxmin_two_entities_solver env q eids none) ∧
    (∀ (env : Env) (extra : List (String × ℤ)) (q : String) (el : List String),
      env.extract_year (env.word_tokenize q) q = none →
      env.extract_number (env.word_tokenize q) q = none →
      (∀ cands, env.rels_to_leave_2hop ≤ (env.rank_rels q cands).length) →
      two_hop_one_ent
        {env with rank_rels := fun qq cands => env.rank_rels qq cands ++ extra} q el =
      two_hop_one_ent env q el) := by
  refine ⟨?_, ?_, ?_, ?_, ?_⟩
  · intro env extra t q eids h
    have hx : ∀ cands : List String,
        ((env.rank_rels q cands).map Prod.fst ++ extra.map Prod.fst).take env.rels_to_leave
          = ((env.rank_rels q cands).map Prod.fst).take env.rels_to_leave := by
      intro cands
      exact List.take_append_of_le_length (by simpa using h cands)
    cases hg : pyGet eids 0 with
    | error e =>
        simp [complex_question_with_number_solver, hg, error_bind]
    | ok fe =>
        cases hy : env.extract_year (env.word_tokenize q) q with
        | some y =>
            simp [complex_question_with_number_solver, hg, hy, ok_bind, error_bind, pure_ok,
              hx, fr_cqwn_rank_irrel]
        | none =>
            cases hn : env.extract_number (env.word_tokenize q) q with
            | some nb =>
                simp [complex_question_with_number_solver, hg, hy, hn, ok_bind, error_bind,
                  pure_ok, hx, fr_cqwn_rank_irrel]
            | none =>
                simp [complex_question_with_number_solver, hg, hy, hn, ok_bind, error_bind,
                  pure_ok]
  · intro env extra t q eids h
    cases hg : pyGet eids 0 with
    | error e =>
        simp [complex_question_with_qualifier_solver, hg, error_bind]
    | ok fe =>
        have hx : ∀ cands : List String,
            ((env.rank_rels q cands).map Prod.fst ++ extra.map Prod.fst).take env.rels_to_leave
              = ((env.rank_rels q cands).map Prod.fst).take env.rels_to_leave := by
          intro cands
          exact List.take_append_of_le_length (by simpa using h cands)
        simp [complex_question_with_qualifier_solver, hg, ok_bind, pure_ok, hx,
          fr_cqwq_rank_irrel]
  · intro env extra q eids h
    have hx : ∀ cands : List String,
        ((env.rank_rels q cands).map Prod.fst ++ extra.map Prod.fst).take env.rels_to_leave
          = ((env.rank_rels q cands).map Prod.fst).take env.rels_to_leave := by
      intro cands
      exact List.take_append_of_le_length (by simpa using h cands)
    simp [questions_with_count_solver, ok_bind, pure_ok, hx, count_pairs_rank_irrel]
  · intro env extra q eids h
    have hx : ∀ cands : List String,
        ((env.rank_rels q cands).map Prod.fst ++ extra.map Prod.fst).take env.rels_to_leave
          = ((env.rank_rels q cands).map Prod.fst).take env.rels_to_leave := by
      intro cands
      exact List.take_append_of_le_length (by simpa using h cands)
    simp [maxmin_two_entities_solver, ok_bind, pure_ok, hx, fr_maxmin_two_rank_irrel]
  · intro env extra q el hy hn h
    have hx : ∀ cands : List String,
        ((env.rank_rels q cands).map Prod.fst ++ extra.map Prod.fst).take env.rels_to_leave_2hop
          = ((env.rank_rels q cands).map Prod.fst).take env.rels_to_leave_2hop := by
      intro cands
      exact List.take_append_of_le_length (by simpa using h cands)
    simp [two_hop_one_ent, hy, hn, hx]

/-- Witness for C5's amended theorem at `envW5` (ranker output length 10,
`rels_to_leave` 10). -/
theorem C5_truncation_in_ranked_solvers_witness :
    complex_question_with_qualifier_solver
      {envW5 with rank_rels := fun qq cands => envW5.rank_rels qq cands ++ [("X", 0)]}
      2 "q" [["E"], ["F"]] none =
    complex_question_with_qualifier_solver envW5 2 "q" [["E"], ["F"]] none :=
  C5_truncation_in_ranked_solvers.2.1 envW5 [("X", 0)] 2 "q" [["E"], ["F"]]
    (fun cands => by simp [envW5, env0])

/-- Every tuple emitted by the object-level step of the numeric-qualifier
search is a triple. -/
theorem cqwn_obj_len (env : Env) (t : Nat) (num rel obj : String) (o : Output)
    (h : o ∈ cqwn_obj env t num rel obj) : o.length = 3 := by
  simp only [cqwn_obj] at h
  split at h
  · split at h
    · simp only [List.mem_flatMap, List.mem_map] at h
      obtain ⟨sr, _, ans, _, rfl⟩ := h
      rfl
    · simp at h
  · split at h
    · split at h
      · simp only [List.mem_map] at h
        obtain ⟨ans, _, rfl⟩ := h
        rfl
      · simp at h
    · simp at h

/-- Every tuple emitted by the object-level step of the qualifier-join
search is a triple. -/
theorem cqwq_obj_len (env : Env) (t : Nat) (rel ent2 obj : String) (o : Output)
    (h : o ∈ cqwq_obj env t rel ent2 obj) : o.length = 3 := by
  simp only [cqwq_obj] at h
  split at h
  · split at h
    · simp only [List.mem_map] at h
      obtain ⟨ans, _, rfl⟩ := h
      rfl
    · simp at h
  · split at h
    · split at h
      · simp only [List.mem_flatMap, List.mem_map] at h
        obtain ⟨sr, _, ans, _, rfl⟩ := h
        rfl
      · simp at h
    · simp at h

/-- Every tuple emitted by the count loop is a pair. -/
theorem count_pairs_len (env : Env) (e : String) :
    ∀ (p : List (String × String)) (a : List String) (o : Output),
      o ∈ count_pairs env e p a → o.length = 2 := by
  intro p
  induction p with
  | nil => intro a o h; simp [count_pairs] at h
  | cons hd tl ih =>
      intro a o h
      cases hd with
      | mk r d =>
          simp only [count_pairs, List.mem_append] at h
          rcases h with h | h
          · split at h
            · simp only [List.mem_singleton] at h
              subst h
              rfl
            · simp at h
          · exact ih _ o h

/-- The keep-only-the-first-output step over projected pairs yields only
pairs. -/
theorem if_empty_head_map2 (l : List (String × String × ℚ)) (o : Output)
    (h : o ∈ if (l.map fun x : String × String × ℚ => ([x.1, x.2.1] : Output)).isEmpty
        then l.map fun x : String × String × ℚ => ([x.1, x.2.1] : Output)
        else [(l.map fun x : String × String × ℚ => ([x.1, x.2.1] : Output)).headD []]) :
    o.length = 2 := by
  cases l with
  | nil => simp at h
  | cons a tl =>
      simp only [List.map_cons, List.isEmpty_cons, List.headD_cons, if_neg Bool.false_ne_true,
        List.mem_singleton] at h
      subst h
      rfl

/-- The keep-only-the-first-output step over projected triples yields only
triples. -/
theorem if_empty_head_map3 (l : List (String × String × String × ℚ)) (o : Output)
    (h : o ∈ if (l.map fun x : String × String × String × ℚ =>
          ([x.1, x.2.1, x.2.2.1] : Output)).isEmpty
        then l.map fun x : String × String × String × ℚ => ([x.1, x.2.1, x.2.2.1] : Output)
        else [(l.map fun x : String × String × String × ℚ =>
          ([x.1, x.2.1, x.2.2.1] : Output)).headD []]) :
    o.length = 3 := by
  cases l with
  | nil => simp at h
  | cons a tl =>
      simp only [List.map_cons, List.isEmpty_cons, List.headD_cons, if_neg Bool.false_ne_true,
        List.mem_singleton] at h
      subst h
      rfl

/-- C8 (amended): each of the numeric-qualifier (0/1), qualifier-join (2/3),
count (4) and max/min (5/6) strategies produces outputs of one fixed arity
(3, 3, 2, 2 and 3 respectively); the generic two-hop strategy (7) does not —
its two-entity search may mix a 2-tuple (joining relation `P31`) with
3-tuples in a single result (see the counterexample). -/
theorem C8_fixed_arity_other_solvers :
    (∀ (env : Env) (t : Nat) (els rels : List String) (num : String) (o : Output),
      o ∈ find_relevant_subgraph_cqwn env t els rels num → o.length = 3) ∧
    (∀ (env : Env) (t : Nat) (combs : List (List String)) (rels : List String) (o : Output),
      o ∈ find_relevant_subgraph_cqwq env t combs rels → o.length = 3) ∧
    (∀ (env : Env) (q : String) (eids : List (List String)) (c : List Output) (o : Output),
      questions_with_count_solver env q eids none = Except.ok c → o ∈ c → o.length = 2) ∧
    (∀ (env : Env) (q : String) (el : List String) (rft : Option (List (List String)))
        (c : List Output) (o : Output),
      maxmin_one_entity_solver env q el rft = Except.ok c → o ∈ c → o.length = 2) ∧
    (∀ (env : Env) (q : String) (eids : List (List String)) (rft : Option (List (List String)))
        (c : List Output) (o : Output),
      maxmin_two_entities_solver env q eids rft = Except.ok c → o ∈ c → o.length = 3) := by
  refine ⟨?_, ?_, ?_, ?_, ?_⟩
  · intro env t els rels num o h
    simp only [find_relevant_subgraph_cqwn, List.mem_flatMap] at h
    obtain ⟨e, _, rel, _, obj, _, ho⟩ := h
    exact cqwn_obj_len env t num rel obj o ho
  · intro env t combs rels o h
    simp only [find_relevant_subgraph_cqwq, List.mem_flatMap] at h
    obtain ⟨comb, _, rel, _, obj, _, ho⟩ := h
    exact cqwq_obj_len env t rel (comb.getD 1 "") obj o ho
  · intro env q eids c o hc ho
    simp only [questions_with_count_solver, ok_bind, pure_ok, Except.ok.injEq] at hc
    subst hc
    simp only [List.mem_flatMap] at ho
    obtain ⟨eid, _, entity, _, hcp⟩ := ho
    exact count_pairs_len env entity _ _ o hcp
  · intro env q el rft c o hc ho
    cases rft with
    | none =>
        cases hf : find_relevant_subgraph_maxmin_one env
            ((env.rank_rels q env.rank_list_0).map Prod.fst) el with
        | error e => simp [maxmin_one_entity_solver, hf, ok_bind, error_bind, pure_ok] at hc
        | ok cands =>
            simp only [maxmin_one_entity_solver, hf, ok_bind, error_bind, pure_ok,
              Except.ok.injEq] at hc
            subst hc
            exact if_empty_head_map2 _ o ho
    | some rfts =>
        cases hg : pyGet rfts 0 with
        | error e => simp [maxmin_one_entity_solver, hg, ok_bind, error_bind, pure_ok] at hc
        | ok first =>
            cases hf : find_relevant_subgraph_maxmin_one env first.dropLast el with
            | error e =>
                simp [maxmin_one_entity_solver, hg, hf, ok_bind, error_bind, pure_ok] at hc
            | ok cands =>
                simp only [maxmin_one_entity_solver, hg, hf, ok_bind, error_bind, pure_ok,
                  Except.ok.injEq] at hc
                subst hc
                exact if_empty_head_map2 _ o ho
  · intro env q eids rft c o hc ho
    cases rft with
    | none =>
        by_cases hlen : eids.length > 1
        · cases hf : find_relevant_subgraph_maxmin_two env
              ((((env.rank_rels q ((eids.flatMap fun entities_list =>
                  entities_list.flatMap fun entity =>
                    env.wp_rels "backw" entity none none (some "direct") none).dedup)).map
                Prod.fst)).take env.rels_to_leave)
              (((env.rank_rels q env.rank_list_1).map Prod.fst).take env.rels_to_leave)
              (make_entity_combs eids) with
          | error e =>
              simp [maxmin_two_entities_solver, hlen, hf, ok_bind, error_bind, pure_ok] at hc
          | ok cands =>
              simp only [maxmin_two_entities_solver, hlen, if_true, hf, ok_bind, error_bind,
                pure_ok, Except.ok.injEq] at hc
              subst hc
              exact if_empty_head_map3 _ o ho
        · simp only [maxmin_two_entities_solver, hlen, if_false, ok_bind, error_bind, pure_ok,
            Except.ok.injEq] at hc
          subst hc
          simp at ho
    | some rfts =>
        cases hg0 : pyGet rfts 0 with
        | error e => simp [maxmin_two_entities_solver, hg0, ok_bind, error_bind, pure_ok] at hc
        | ok first =>
            cases hg1 : pyGet rfts 1 with
            | error e =>
                simp [maxmin_two_entities_solver, hg0, hg1, ok_bind, error_bind, pure_ok] at hc
            | ok second =>
                by_cases hlen : eids.length > 1
                · cases hf : find_relevant_subgraph_maxmin_two env
                      (first.dropLast.take env.rels_to_leave)
                      (second.dropLast.take env.rels_to_leave) (make_entity_combs eids) with
                  | error e =>
                      simp [maxmin_two_entities_solver, hg0, hg1, hlen, hf, ok_bind,
                        error_bind, pure_ok] at hc
                  | ok cands =>
                      simp only [maxmin_two_entities_solver, hg0, hg1, hlen, if_true, hf,
                        ok_bind, error_bind, pure_ok, Except.ok.injEq] at hc
                      subst hc
                      exact if_empty_head_map3 _ o ho
                · simp only [maxmin_two_entities_solver, hg0, hg1, hlen, if_false, ok_bind,
                    error_bind, pure_ok, Except.ok.injEq] at hc
                  subst hc
                  simp at ho

/-- Witness for C8's amended theorem on the template-0 fixture. -/
theorem C8_fixed_arity_other_solvers_witness :
    (["RG", "PQ", "ANS"] : Output) ∈ find_relevant_subgraph_cqwn envC4 0 ["E"] ["RG"] "2001" ∧
    (["RG", "PQ", "ANS"] : Output).length = 3 :=
  ⟨by decide, C8_fixed_arity_other_solvers.1 envC4 0 ["E"] ["RG"] "2001"
    ["RG", "PQ", "ANS"] (by decide)⟩

end QueryGen
